import Mathlib

/-!
Shallow embedding of the `stat-functions` repository.

The repository holds two Python source files with closed-form statistics
formulas over five probability distributions:

* `src/code/functions.py` — the full library (five means, four standard
  deviations); embedded below in namespace `Code`.
* `src/functions.py` — a second variant of the four mean functions with
  slightly different validation; embedded below in namespace `Root`.

Modelling conventions:

* Python numeric values are embedded as exact rationals `ℚ` (every concrete
  value in the spec, such as 0.25 or 1.25, is exactly representable).
* A `raise ValueError(msg)` is embedded as `Except.error msg`; a `return e`
  as `Except.ok e`.
* The binomial functions inspect the Python *type* of `n` with
  `isinstance(n, int)`, so `n` is embedded as a tagged value `PyNum` that
  remembers whether the caller passed an `int` or a `float`.
* `math.sqrt` is irrational-valued, so each standard-deviation function is
  embedded by a computable function named `..._var` returning the exact
  rational radicand `var` on which the source calls `math.sqrt`; the
  real-valued result of the Python function is `Real.sqrt` of that value,
  which the theorems state explicitly.
-/

/-- A Python numeric argument: either an `int` or a `float` (kept as an exact
rational).  `isinstance(x, int)` inspects the tag, so a `float` that happens
to equal an integer, such as `2.0`, is still not an `int`. -/
inductive PyNum where
  | int (i : ℤ)
  | float (x : ℚ)
deriving DecidableEq, Repr

/-- Numeric value of a Python number: Python compares and multiplies `int`
and `float` arguments by value. -/
def PyNum.toQ : PyNum → ℚ
  | .int i => (i : ℚ)
  | .float x => x

/-- Embedding of the Python check `isinstance(n, int)`. -/
def PyNum.isInt : PyNum → Bool
  | .int _ => true
  | .float _ => false

namespace Code

/-- Embeds `mean_binomial_dist` of `src/code/functions.py`: validates
`0 <= p <= 1`, `isinstance(n, int)` and `n <= 0`, then returns `n * p`. -/
def mean_binomial_dist (p : ℚ) (n : PyNum) : Except String ℚ :=
  if ¬ (0 ≤ p ∧ p ≤ 1) then .error "p must agree with 0 <= p <= 1."
  else if ¬ n.isInt then .error "n must be a non-zero positive integer."
  else if n.toQ ≤ 0 then .error "n must be a non-zero positive integer."
  else .ok (n.toQ * p)

/-- Embeds `mean_geometric_dist` of `src/code/functions.py`: validates
`0 < p <= 1`, then dispatches on the support flag (`0` gives `1/p`, `1`
gives `(1-p)/1`, anything else raises). -/
def mean_geometric_dist (p : ℚ) (support : ℚ) : Except String ℚ :=
  if ¬ (0 < p ∧ p ≤ 1) then .error "p must agree with 0 < p <= 1."
  else if support = 0 then .ok (1 / p)
  else if support = 1 then .ok ((1 - p) / 1)
  else .error "support must be 0 or 1."

/-- Embeds `mean_uniform_dist` of `src/code/functions.py`: raises only when
`a > b` (so `a == b` is accepted), then returns `(a * b) / 2`. -/
def mean_uniform_dist (a b : ℚ) : Except String ℚ :=
  if a > b then .error "a and b must agree with a < b."
  else .ok (a * b / 2)

/-- Embeds `mean_exponential_dist` of `src/code/functions.py`: raises when
`λ <= 0`, then returns `1 / λ`. -/
def mean_exponential_dist (lam : ℚ) : Except String ℚ :=
  if lam ≤ 0 then .error "λ cannot be less than or equal to 0."
  else .ok (1 / lam)

/-- Embeds `stdev_binomial_dist` of `src/code/functions.py` up to the final
`math.sqrt`: same validation as the mean, then returns the radicand
`var = n * p * (1-p)`; the Python function returns `math.sqrt var`. -/
def stdev_binomial_dist_var (p : ℚ) (n : PyNum) : Except String ℚ :=
  if ¬ (0 ≤ p ∧ p ≤ 1) then .error "p must agree with 0 <= p <= 1."
  else if ¬ n.isInt then .error "n must be a non-zero positive integer."
  else if n.toQ ≤ 0 then .error "n must be a non-zero positive integer."
  else .ok (n.toQ * p * (1 - p))

/-- Embeds `stdev_geometric_dist` of `src/code/functions.py` up to the final
`math.sqrt`: validates `0 < p <= 1`, then returns the radicand
`var = (1-p) / p ** 2`. -/
def stdev_geometric_dist_var (p : ℚ) : Except String ℚ :=
  if ¬ (0 < p ∧ p ≤ 1) then .error "p must agree with 0 < p <= 1."
  else .ok ((1 - p) / p ^ 2)

/-- Embeds `stdev_poisson_dist` of `src/code/functions.py` up to the final
`math.sqrt`: raises when `λ <= 0`, then returns the radicand `λ`. -/
def stdev_poisson_dist_var (lam : ℚ) : Except String ℚ :=
  if lam ≤ 0 then .error "λ cannot be less than or equal to 0."
  else .ok lam

/-- Embeds `stdev_uniform_dist` of `src/code/functions.py` up to the final
`math.sqrt`: raises only when `a > b`, then returns the radicand
`var = (1/12) * (b - a) ** 2`. -/
def stdev_uniform_dist_var (a b : ℚ) : Except String ℚ :=
  if a > b then .error "a and b must agree with a < b."
  else .ok (1 / 12 * (b - a) ^ 2)

/-- Embeds `stdev_exponential_dist` of `src/code/functions.py` up to the
final `math.sqrt`: raises when `λ <= 0`, then returns the radicand
`var = 1 / λ ** 2`. -/
def stdev_exponential_dist_var (lam : ℚ) : Except String ℚ :=
  if lam ≤ 0 then .error "λ cannot be less than or equal to 0."
  else .ok (1 / lam ^ 2)

end Code

namespace Root

/-- Embeds `mean_binomial_dist` of `src/functions.py`: validates
`0 <= p <= 1` and `isinstance(n, int)` only (no positivity check), then
returns `n * p`. -/
def mean_binomial_dist (p : ℚ) (n : PyNum) : Except String ℚ :=
  if ¬ (0 ≤ p ∧ p ≤ 1) then .error "p must agree with 0 <= p <= 1."
  else if ¬ n.isInt then .error "n must be a non-zero positive integer."
  else .ok (n.toQ * p)

/-- Embeds `mean_geometric_dist` of `src/functions.py` (same body as the
`src/code` variant). -/
def mean_geometric_dist (p : ℚ) (support : ℚ) : Except String ℚ :=
  if ¬ (0 < p ∧ p ≤ 1) then .error "p must agree with 0 < p <= 1."
  else if support = 0 then .ok (1 / p)
  else if support = 1 then .ok ((1 - p) / 1)
  else .error "support must be 0 or 1."

/-- Embeds `mean_uniform_dist` of `src/functions.py`: raises when
`not a < b` (so `a == b` is rejected), then returns `(a * b) / 2`. -/
def mean_uniform_dist (a b : ℚ) : Except String ℚ :=
  if ¬ a < b then .error "a and b must agree with a < b."
  else .ok (a * b / 2)

/-- Embeds `mean_exponential_dist` of `src/functions.py`: raises only when
`λ == 0` (negative rates are accepted), then returns `1 / λ`. -/
def mean_exponential_dist (lam : ℚ) : Except String ℚ :=
  if lam = 0 then .error "λ cannot be equal to 0."
  else .ok (1 / lam)

end Root

/-- C1: for every p with 0 ≤ p ≤ 1 and every integer n ≥ 1, the binomial mean
functions of both source files return n * p and the binomial standard
deviation returns the square root of n * p * (1 - p), with no error. -/
theorem c1_binomial_mean_and_stdev (p : ℚ) (i : ℤ) (hp0 : 0 ≤ p) (hp1 : p ≤ 1) (hi : 1 ≤ i) :
    Code.mean_binomial_dist p (.int i) = .ok ((i : ℚ) * p) ∧
    Code.stdev_binomial_dist_var p (.int i) = .ok ((i : ℚ) * p * (1 - p)) ∧
    Root.mean_binomial_dist p (.int i) = .ok ((i : ℚ) * p) := by
  have hpos : ¬ ((i : ℚ) ≤ 0) := by
    push_neg
    exact_mod_cast lt_of_lt_of_le one_pos hi
  refine ⟨?_, ?_, ?_⟩ <;>
    simp [Code.mean_binomial_dist, Code.stdev_binomial_dist_var, Root.mean_binomial_dist,
      PyNum.isInt, PyNum.toQ, hp0, hp1, hpos]

/-- Witness for C1 at p = 1/2, n = 4. -/
theorem c1_binomial_mean_and_stdev_witness :
    Code.mean_binomial_dist (1/2) (.int 4) = .ok (((4 : ℤ) : ℚ) * (1/2)) ∧
    Code.stdev_binomial_dist_var (1/2) (.int 4) = .ok (((4 : ℤ) : ℚ) * (1/2) * (1 - 1/2)) ∧
    Root.mean_binomial_dist (1/2) (.int 4) = .ok (((4 : ℤ) : ℚ) * (1/2)) :=
  c1_binomial_mean_and_stdev (1/2) 4 (by norm_num) (by norm_num) (by norm_num)

/-- C2: for every a < b the uniform mean is the non-standard (a * b) / 2, and
at a = 2, b = 8 the mean is 8 and the standard-deviation radicand is
(1/12) * 36. -/
theorem c2_uniform_mean_formula (a b : ℚ) (hab : a < b) :
    Code.mean_uniform_dist a b = .ok (a * b / 2) ∧
    Code.mean_uniform_dist 2 8 = .ok 8 ∧
    Code.stdev_uniform_dist_var 2 8 = .ok (1/12 * 36) := by
  have h : ¬ (a > b) := not_lt.mpr hab.le
  refine ⟨by simp [Code.mean_uniform_dist, h], ?_, ?_⟩
  · norm_num [Code.mean_uniform_dist]
  · norm_num [Code.stdev_uniform_dist_var]

/-- Witness for C2 at a = 2, b = 8. -/
theorem c2_uniform_mean_formula_witness :
    Code.mean_uniform_dist 2 8 = .ok (2 * 8 / 2) ∧
    Code.mean_uniform_dist 2 8 = .ok 8 ∧
    Code.stdev_uniform_dist_var 2 8 = .ok (1/12 * 36) :=
  c2_uniform_mean_formula 2 8 (by norm_num)

/-- C3: evaluation at the failing input a = b = 5.  The `src/code` uniform
functions guard only `a > b`, so mean_uniform_dist(5, 5) returns 12.5 and the
standard-deviation radicand is 0, although their docstrings (and the
`src/functions.py` variant, which does raise there) require strict a < b;
mean_uniform_dist(8, 3) raises in both variants. -/
theorem c3_uniform_equal_bounds_accepted :
    Code.mean_uniform_dist 5 5 = .ok (25/2) ∧
    Code.stdev_uniform_dist_var 5 5 = .ok 0 ∧
    Root.mean_uniform_dist 5 5 = .error "a and b must agree with a < b." ∧
    Code.mean_uniform_dist 8 3 = .error "a and b must agree with a < b." ∧
    Root.mean_uniform_dist 8 3 = .error "a and b must agree with a < b." := by
  refine ⟨?_, ?_, ?_, ?_, ?_⟩ <;>
    norm_num [Code.mean_uniform_dist, Code.stdev_uniform_dist_var, Root.mean_uniform_dist]

/-- C4 counterexample: the permissive variant (src/functions.py) does not
accept n = 2.5 and does not return 1.25; its isinstance check rejects every
float. -/
theorem c4_counterexample_permissive_rejects_float :
    Root.mean_binomial_dist (1/2) (.float (5/2)) = .error "n must be a non-zero positive integer." ∧
    Root.mean_binomial_dist (1/2) (.float (5/2)) ≠ .ok (5/4) := by
  have h : Root.mean_binomial_dist (1/2) (.float (5/2)) =
      .error "n must be a non-zero positive integer." := by
    norm_num [Root.mean_binomial_dist, PyNum.isInt]
  exact ⟨h, fun hcontra => Except.noConfusion (h ▸ hcontra)⟩

/-- C4 (amended): both binomial-mean variants reject every float trial count
(such as 2.5) with the InvalidParameter message of the integer check,
whenever p passes its own validation. -/
theorem c4_both_variants_reject_noninteger_n (p x : ℚ) (hp0 : 0 ≤ p) (hp1 : p ≤ 1) :
    Code.mean_binomial_dist p (.float x) = .error "n must be a non-zero positive integer." ∧
    Root.mean_binomial_dist p (.float x) = .error "n must be a non-zero positive integer." := by
  constructor <;>
    simp [Code.mean_binomial_dist, Root.mean_binomial_dist, PyNum.isInt, hp0, hp1]

/-- Witness for the amended C4 at p = 1/2, n = 2.5. -/
theorem c4_both_variants_reject_noninteger_n_witness :
    Code.mean_binomial_dist (1/2) (.float (5/2)) = .error "n must be a non-zero positive integer." ∧
    Root.mean_binomial_dist (1/2) (.float (5/2)) = .error "n must be a non-zero positive integer." :=
  c4_both_variants_reject_noninteger_n (1/2) (5/2) (by norm_num) (by norm_num)

/-- C5: the two binomial-mean variants differ exactly in the positivity
check: they agree unless p is valid and n is an integer ≤ 0, in which case
the src/code variant raises and the src/functions.py variant returns n * p;
in particular at p = 1/2, n = 0 the stricter variant raises and the
permissive one returns 0. -/
theorem c5_binomial_variants_differ_only_on_positivity (p : ℚ) (n : PyNum) (i : ℤ) :
    (¬ (0 ≤ p ∧ p ≤ 1 ∧ n.isInt = true ∧ n.toQ ≤ 0) →
      Root.mean_binomial_dist p n = Code.mean_binomial_dist p n) ∧
    (0 ≤ p → p ≤ 1 → i ≤ 0 →
      Code.mean_binomial_dist p (.int i) = .error "n must be a non-zero positive integer." ∧
      Root.mean_binomial_dist p (.int i) = .ok ((i : ℚ) * p)) ∧
    Code.mean_binomial_dist (1/2) (.int 0) = .error "n must be a non-zero positive integer." ∧
    Root.mean_binomial_dist (1/2) (.int 0) = .ok 0 := by
  refine ⟨?_, ?_, ?_, ?_⟩
  · intro h
    unfold Root.mean_binomial_dist Code.mean_binomial_dist
    by_cases hp : 0 ≤ p ∧ p ≤ 1
    · by_cases hn : n.isInt = true
      · have hpos : ¬ n.toQ ≤ 0 := fun hle => h ⟨hp.1, hp.2, hn, hle⟩
        simp [hp, hn, hpos]
      · simp [hp, hn]
    · simp [hp]
  · intro h0 h1 hi
    have hle : (i : ℚ) ≤ 0 := by exact_mod_cast hi
    constructor <;>
      simp [Code.mean_binomial_dist, Root.mean_binomial_dist, PyNum.isInt, PyNum.toQ, h0, h1, hle]
  · norm_num [Code.mean_binomial_dist, PyNum.isInt, PyNum.toQ]
  · norm_num [Root.mean_binomial_dist, PyNum.isInt, PyNum.toQ]

/-- Witness for C5 at n = 3 (agreement) and n = 0 (the one divergence). -/
theorem c5_binomial_variants_witness :
    Root.mean_binomial_dist (1/2) (.int 3) = Code.mean_binomial_dist (1/2) (.int 3) ∧
    Code.mean_binomial_dist (1/2) (.int 0) = .error "n must be a non-zero positive integer." ∧
    Root.mean_binomial_dist (1/2) (.int 0) = .ok (((0 : ℤ) : ℚ) * (1/2)) := by
  obtain ⟨h1, -, -, -⟩ := c5_binomial_variants_differ_only_on_positivity (1/2) (PyNum.int 3) 0
  obtain ⟨-, h2, -, -⟩ := c5_binomial_variants_differ_only_on_positivity (1/2) (PyNum.int 0) 0
  refine ⟨h1 ?_, (h2 (by norm_num) (by norm_num) le_rfl).1, (h2 (by norm_num) (by norm_num) le_rfl).2⟩
  norm_num [PyNum.toQ]

/-- C6: the src/code exponential mean rejects exactly rate ≤ 0 while the
src/functions.py variant rejects exactly rate = 0; on the accepted domain
both return 1 / rate and the standard-deviation radicand is 1 / rate²;
at rate = 4 both means and the standard deviation equal 0.25, at rate = 0
both fail, and at rate = -2 only the permissive variant returns a value. -/
theorem c6_exponential_variants (lam : ℚ) :
    (Code.mean_exponential_dist lam = .error "λ cannot be less than or equal to 0." ↔ lam ≤ 0) ∧
    (Root.mean_exponential_dist lam = .error "λ cannot be equal to 0." ↔ lam = 0) ∧
    (0 < lam → Code.mean_exponential_dist lam = .ok (1 / lam)) ∧
    (lam ≠ 0 → Root.mean_exponential_dist lam = .ok (1 / lam)) ∧
    (0 < lam → Code.stdev_exponential_dist_var lam = .ok (1 / lam ^ 2)) ∧
    Code.mean_exponential_dist 4 = .ok (1/4) ∧
    Root.mean_exponential_dist 4 = .ok (1/4) ∧
    Code.stdev_exponential_dist_var 4 = .ok (1/16) ∧
    Real.sqrt ((1/16 : ℚ) : ℝ) = ((1/4 : ℚ) : ℝ) ∧
    Code.mean_exponential_dist 0 = .error "λ cannot be less than or equal to 0." ∧
    Root.mean_exponential_dist 0 = .error "λ cannot be equal to 0." ∧
    Code.mean_exponential_dist (-2) = .error "λ cannot be less than or equal to 0." ∧
    Root.mean_exponential_dist (-2) = .ok (1 / (-2)) := by
  refine ⟨?_, ?_, ?_, ?_, ?_, ?_, ?_, ?_, ?_, ?_, ?_, ?_, ?_⟩
  · by_cases h : lam ≤ 0 <;> simp [Code.mean_exponential_dist, h]
  · by_cases h : lam = 0 <;> simp [Root.mean_exponential_dist, h]
  · intro h
    simp [Code.mean_exponential_dist, not_le.mpr h]
  · intro h
    simp [Root.mean_exponential_dist, h]
  · intro h
    simp [Code.stdev_exponential_dist_var, not_le.mpr h]
  · norm_num [Code.mean_exponential_dist]
  · norm_num [Root.mean_exponential_dist]
  · norm_num [Code.stdev_exponential_dist_var]
  · have h : ((1/16 : ℚ) : ℝ) = ((1/4 : ℚ) : ℝ) ^ 2 := by push_cast; norm_num
    rw [h, Real.sqrt_sq (by push_cast; norm_num)]
  · norm_num [Code.mean_exponential_dist]
  · norm_num [Root.mean_exponential_dist]
  · norm_num [Code.mean_exponential_dist]
  · norm_num [Root.mean_exponential_dist]

/-- Witness for C6 at rate = 2 for the three conditional conjuncts. -/
theorem c6_exponential_variants_witness :
    Code.mean_exponential_dist 2 = .ok (1 / 2) ∧
    Root.mean_exponential_dist 2 = .ok (1 / 2) ∧
    Code.stdev_exponential_dist_var 2 = .ok (1 / 2 ^ 2) := by
  obtain ⟨-, -, h3, h4, h5, -⟩ := c6_exponential_variants 2
  exact ⟨h3 (by norm_num), h4 (by norm_num), h5 (by norm_num)⟩

/-- C7: for every p with 0 < p ≤ 1 the geometric mean is 1/p at support 0,
1 - p at support 1, and the InvalidParameter error at support 2; the
standard-deviation radicand is (1 - p) / p²; and every geometric function of
both files fails with the p-range error for every q outside (0, 1], at any
support s. -/
theorem c7_geometric_mean_and_stdev (p q s : ℚ) (hp0 : 0 < p) (hp1 : p ≤ 1)
    (hq : ¬ (0 < q ∧ q ≤ 1)) :
    Code.mean_geometric_dist p 0 = .ok (1 / p) ∧
    Code.mean_geometric_dist p 1 = .ok (1 - p) ∧
    Code.mean_geometric_dist p 2 = .error "support must be 0 or 1." ∧
    Code.stdev_geometric_dist_var p = .ok ((1 - p) / p ^ 2) ∧
    Root.mean_geometric_dist p 0 = .ok (1 / p) ∧
    Root.mean_geometric_dist p 1 = .ok (1 - p) ∧
    Root.mean_geometric_dist p 2 = .error "support must be 0 or 1." ∧
    Code.mean_geometric_dist q s = .error "p must agree with 0 < p <= 1." ∧
    Code.stdev_geometric_dist_var q = .error "p must agree with 0 < p <= 1." ∧
    Root.mean_geometric_dist q s = .error "p must agree with 0 < p <= 1." := by
  refine ⟨?_, ?_, ?_, ?_, ?_, ?_, ?_, ?_, ?_, ?_⟩ <;>
    norm_num [Code.mean_geometric_dist, Code.stdev_geometric_dist_var,
      Root.mean_geometric_dist, hp0, hp1, hq]

/-- Witness for C7 at p = 1/2 and q = 2. -/
theorem c7_geometric_mean_and_stdev_witness :
    Code.mean_geometric_dist (1/2) 0 = .ok (1 / (1/2)) ∧
    Code.mean_geometric_dist (1/2) 2 = .error "support must be 0 or 1." ∧
    Code.stdev_geometric_dist_var (1/2) = .ok ((1 - 1/2) / (1/2) ^ 2) ∧
    Code.mean_geometric_dist 2 0 = .error "p must agree with 0 < p <= 1." := by
  obtain ⟨h1, -, h3, h4, -, -, -, h8, -, -⟩ :=
    c7_geometric_mean_and_stdev (1/2) 2 0 (by norm_num) (by norm_num) (by norm_num)
  exact ⟨h1, h3, h4, h8⟩

/-- C8: the poisson standard deviation raises exactly when rate ≤ 0 and
otherwise its radicand is the rate itself; at rate = 9 the radicand is 9
whose square root is 3, and rates 0 and -1 both fail. -/
theorem c8_poisson_stdev (lam : ℚ) :
    (Code.stdev_poisson_dist_var lam = .error "λ cannot be less than or equal to 0." ↔ lam ≤ 0) ∧
    (0 < lam → Code.stdev_poisson_dist_var lam = .ok lam) ∧
    Code.stdev_poisson_dist_var 9 = .ok 9 ∧
    Real.sqrt ((9 : ℚ) : ℝ) = 3 ∧
    Code.stdev_poisson_dist_var 0 = .error "λ cannot be less than or equal to 0." ∧
    Code.stdev_poisson_dist_var (-1) = .error "λ cannot be less than or equal to 0." := by
  refine ⟨?_, ?_, ?_, ?_, ?_, ?_⟩
  · by_cases h : lam ≤ 0 <;> simp [Code.stdev_poisson_dist_var, h]
  · intro h
    simp [Code.stdev_poisson_dist_var, not_le.mpr h]
  · norm_num [Code.stdev_poisson_dist_var]
  · have h : ((9 : ℚ) : ℝ) = (3 : ℝ) ^ 2 := by push_cast; norm_num
    rw [h, Real.sqrt_sq (by norm_num)]
  · norm_num [Code.stdev_poisson_dist_var]
  · norm_num [Code.stdev_poisson_dist_var]

/-- Witness for C8 at rate = 7. -/
theorem c8_poisson_stdev_witness :
    Code.stdev_poisson_dist_var 7 = .ok 7 :=
  (c8_poisson_stdev 7).2.1 (by norm_num)

/-- C9: whenever a function of the library returns a value, its validation
already ruled out every arithmetic hazard: each divisor that the formula
uses is non-zero and each radicand handed to math.sqrt is non-negative. -/
theorem c9_validated_domain_safety :
    (∀ p s v, Code.mean_geometric_dist p s = .ok v → p ≠ 0) ∧
    (∀ lam v, Code.mean_exponential_dist lam = .ok v → lam ≠ 0) ∧
    (∀ lam v, Root.mean_exponential_dist lam = .ok v → lam ≠ 0) ∧
    (∀ p n v, Code.stdev_binomial_dist_var p n = .ok v → 0 ≤ v) ∧
    (∀ p v, Code.stdev_geometric_dist_var p = .ok v → p ≠ 0 ∧ 0 ≤ v) ∧
    (∀ lam v, Code.stdev_poisson_dist_var lam = .ok v → 0 ≤ v) ∧
    (∀ a b v, Code.stdev_uniform_dist_var a b = .ok v → 0 ≤ v) ∧
    (∀ lam v, Code.stdev_exponential_dist_var lam = .ok v → lam ≠ 0 ∧ 0 ≤ v) := by
  refine ⟨?_, ?_, ?_, ?_, ?_, ?_, ?_, ?_⟩
  · intro p s v h
    unfold Code.mean_geometric_dist at h
    split_ifs at h with h1 h2 h3
    · exact h1.1.ne'
    · exact h1.1.ne'
  · intro lam v h
    unfold Code.mean_exponential_dist at h
    split_ifs at h with h1
    exact (not_le.mp h1).ne'
  · intro lam v h
    unfold Root.mean_exponential_dist at h
    split_ifs at h with h1
    exact h1
  · intro p n v h
    unfold Code.stdev_binomial_dist_var at h
    split_ifs at h with h1 h2 h3
    obtain ⟨hp0, hp1⟩ := h1
    have hn : (0 : ℚ) < n.toQ := not_le.mp h3
    simp only [Except.ok.injEq] at h
    subst h
    exact mul_nonneg (mul_nonneg hn.le hp0) (by linarith)
  · intro p v h
    unfold Code.stdev_geometric_dist_var at h
    split_ifs at h with h1
    obtain ⟨hp0, hp1⟩ := h1
    simp only [Except.ok.injEq] at h
    subst h
    exact ⟨hp0.ne', div_nonneg (by linarith) (by positivity)⟩
  · intro lam v h
    unfold Code.stdev_poisson_dist_var at h
    split_ifs at h with h1
    simp only [Except.ok.injEq] at h
    subst h
    exact (not_le.mp h1).le
  · intro a b v h
    unfold Code.stdev_uniform_dist_var at h
    split_ifs at h with h1
    simp only [Except.ok.injEq] at h
    subst h
    positivity
  · intro lam v h
    unfold Code.stdev_exponential_dist_var at h
    split_ifs at h with h1
    simp only [Except.ok.injEq] at h
    subst h
    exact ⟨(not_le.mp h1).ne', by positivity⟩

/-- Witness for C9, exercising every conjunct at a concrete input. -/
theorem c9_validated_domain_safety_witness :
    (1/2 : ℚ) ≠ 0 ∧ (2 : ℚ) ≠ 0 ∧ (-2 : ℚ) ≠ 0 ∧ (0 : ℚ) ≤ 1/4 ∧
    ((1/2 : ℚ) ≠ 0 ∧ (0 : ℚ) ≤ 2) ∧ (0 : ℚ) ≤ 9 ∧ (0 : ℚ) ≤ 3 ∧
    ((2 : ℚ) ≠ 0 ∧ (0 : ℚ) ≤ 1/4) := by
  obtain ⟨hg, he, hre, hb, hsg, hpo, hu, hse⟩ := c9_validated_domain_safety
  refine ⟨hg (1/2) 0 2 ?_, he 2 (1/2) ?_, hre (-2) (1/(-2)) ?_, hb (1/2) (.int 1) (1/4) ?_,
    hsg (1/2) 2 ?_, hpo 9 9 ?_, hu 2 8 3 ?_, hse 2 (1/4) ?_⟩
  · norm_num [Code.mean_geometric_dist]
  · norm_num [Code.mean_exponential_dist]
  · norm_num [Root.mean_exponential_dist]
  · norm_num [Code.stdev_binomial_dist_var, PyNum.isInt, PyNum.toQ]
  · norm_num [Code.stdev_geometric_dist_var]
  · norm_num [Code.stdev_poisson_dist_var]
  · norm_num [Code.stdev_uniform_dist_var]
  · norm_num [Code.stdev_exponential_dist_var]

/-- C10: for every rate > 0 the exponential mean is 1 / rate and the
standard-deviation radicand is 1 / rate², whose square root equals the mean,
so the two functions return the same value on the shared domain. -/
theorem c10_exponential_stdev_equals_mean (lam : ℚ) (h : 0 < lam) :
    Code.mean_exponential_dist lam = .ok (1 / lam) ∧
    Code.stdev_exponential_dist_var lam = .ok (1 / lam ^ 2) ∧
    Real.sqrt ((1 / lam ^ 2 : ℚ) : ℝ) = ((1 / lam : ℚ) : ℝ) := by
  have h' : ¬ lam ≤ 0 := not_le.mpr h
  have hl : (0 : ℝ) < (lam : ℝ) := by exact_mod_cast h
  refine ⟨by simp [Code.mean_exponential_dist, h'],
    by simp [Code.stdev_exponential_dist_var, h'], ?_⟩
  push_cast
  rw [one_div, one_div, Real.sqrt_inv, Real.sqrt_sq hl.le]

/-- Witness for C10 at rate = 4. -/
theorem c10_exponential_stdev_equals_mean_witness :
    Code.mean_exponential_dist 4 = .ok (1 / 4) ∧
    Code.stdev_exponential_dist_var 4 = .ok (1 / 4 ^ 2) ∧
    Real.sqrt ((1 / (4 : ℚ) ^ 2 : ℚ) : ℝ) = ((1 / (4 : ℚ) : ℚ) : ℝ) :=
  c10_exponential_stdev_equals_mean 4 (by norm_num)
